import Mathlib

/-!
Shallow embedding of the task-manager repository (Node.js / Express).

The repository stores a task list in one JSON file.  Two routers exist:
a JSON API router (readTasks, writeTasks, GET /, POST /, DELETE /:index)
and an HTML-view router (readTasks, GET /, POST /add, GET /delete/:index).
Both routers share the same read-modify-write logic; we embed both.

JavaScript values reaching the handlers are modelled by `JVal` (the JSON
universe the handlers actually touch: null, booleans, numbers, strings,
arrays; numbers restricted to integers since the handlers only compare
parsed integers and the falsy check on 0).  The persisted file is modelled
by `FileState`: absent (readFileSync throws), present but not valid JSON
(JSON.parse throws), or present with content parsing to a `JVal`.
-/

namespace TaskManager

/-- JSON-ish value universe handled by the routers. -/
inductive JVal where
  | null
  | bool (b : Bool)
  | num (n : Int)
  | str (s : String)
  | arr (xs : List JVal)


/-- State of the persisted tasks.json file.  `absent`: the file does not
exist, so fs.readFileSync throws.  `unparseable`: the file exists but its
bytes are not valid JSON, so JSON.parse throws.  `stored v`: the file
exists and its content parses to the JSON value `v` (not necessarily an
array). -/
inductive FileState where
  | absent
  | unparseable
  | stored (v : JVal)


/-- Embeds readTasks (identical in part_001 lines 8-15 and part_002 lines
9-16): try reading and JSON-parsing the file, returning the parsed value;
on any exception (missing file or parse failure) return the empty array. -/
def readTasks : FileState → JVal
  | .absent => .arr []
  | .unparseable => .arr []
  | .stored v => v

/-- Embeds writeTasks (part_001 lines 18-20): JSON.stringify the value and
overwrite the file; the stringified content parses back to the same value. -/
def writeTasks (v : JVal) : FileState := .stored v

/-- JavaScript truthiness test on a JVal, as used by the guard `if (!task)`:
null, false, 0 and the empty string are falsy; arrays are always truthy. -/
def jsFalsy : JVal → Bool
  | .null => true
  | .bool b => !b
  | .num n => n == 0
  | .str s => s == ""
  | .arr _ => false

/-- Truthiness of the possibly-absent request field `req.body.task`:
an absent field reads as undefined, which is falsy. -/
def bodyTaskFalsy : Option JVal → Bool
  | none => true
  | some v => jsFalsy v

/-- JavaScript whitespace accepted by parseInt before the number. -/
def isJsSpace (c : Char) : Bool :=
  c == ' ' || c == '\t' || c == '\n' || c == '\r'

/-- Value of a list of decimal digit characters. -/
def digitsVal (cs : List Char) : Nat :=
  cs.foldl (fun acc c => acc * 10 + (c.toNat - 48)) 0

/-- Embeds the JavaScript parseInt(string) call of the delete handlers
(radix 10 path): skip leading whitespace, read an optional sign, then take
the maximal prefix of decimal digits; if that prefix is empty the result
is NaN (modelled as none).  Trailing garbage after the digits is ignored,
so parseInt of "1.5" is 1 and parseInt of "2abc" is 2. -/
def parseIntJS (s : String) : Option Int :=
  let cs := s.data.dropWhile isJsSpace
  let signAndRest : Bool × List Char :=
    match cs with
    | '-' :: r => (true, r)
    | '+' :: r => (false, r)
    | _ => (false, cs)
  let ds := signAndRest.2.takeWhile (fun c => c.isDigit)
  if ds.isEmpty then none
  else if signAndRest.1 then some (-(digitsVal ds : Int))
  else some (digitsVal ds : Int)

/-- Outcome of the JSON API add handler (part_001 lines 29-40). -/
inductive AddOutcome where
  | validationError
  | ok (tasks : JVal)
  | crash


/-- Embeds router.post of part_001 (lines 29-40): reject a falsy task with
HTTP 400, otherwise read the current tasks, push the task, write back, and
respond with the new array.  If the stored value is not an array, the
tasks.push call throws an uncaught TypeError before any write (crash). -/
def postTask (st : FileState) (task : Option JVal) : FileState × AddOutcome :=
  match task with
  | none => (st, .validationError)
  | some t =>
    if jsFalsy t then (st, .validationError)
    else
      match readTasks st with
      | .arr xs => (writeTasks (.arr (xs ++ [t])), .ok (.arr (xs ++ [t])))
      | _ => (st, .crash)

/-- Outcome of the JSON API delete handler (part_001 lines 43-55).
deletedTask carries exactly the JSON value placed in the response, namely
the array returned by tasks.splice(index, 1). -/
inductive DelOutcome where
  | indexError
  | ok (deletedTask : JVal) (tasks : JVal)
  | crash


/-- The effect of tasks.splice(i, 1) for i in bounds: first component is
the returned array of removed elements, second is the mutated array. -/
def spliceRemove (xs : List JVal) (i : Nat) : List JVal × List JVal :=
  ((xs.drop i).take 1, xs.take i ++ xs.drop (i + 1))

/-- Embeds router.delete of part_001 (lines 43-55): read the tasks, parse
the :index route parameter with parseInt, reject with HTTP 400 when the
parse gives NaN, or the integer is negative, or it is at least the length
of the loaded array; otherwise splice out one element, write back, and
respond with the splice result and the new array.  When the stored value
is not an array its .length is undefined, the comparison index >= undefined
is false, and tasks.splice throws before any write (crash). -/
def deleteTask (st : FileState) (indexParam : String) : FileState × DelOutcome :=
  let tasks := readTasks st
  match parseIntJS indexParam with
  | none => (st, .indexError)
  | some i =>
    if i < 0 then (st, .indexError)
    else
      match tasks with
      | .arr xs =>
        if (xs.length : Int) ≤ i then (st, .indexError)
        else
          let r := spliceRemove xs i.toNat
          (writeTasks (.arr r.2), .ok (.arr r.1) (.arr r.2))
      | _ => (st, .crash)

/-- Embeds router.get of part_001 (lines 23-26): respond with readTasks()
and perform no write. -/
def getTasks (st : FileState) : FileState × JVal := (st, readTasks st)

/-- Outcome of the HTML-view add handler (part_002 lines 25-34). -/
inductive ViewAddOutcome where
  | badRequest
  | redirect
  | crash


/-- Embeds router.post of part_002 (lines 25-34): same logic as the JSON
add handler but responds with a redirect on success. -/
def viewAdd (st : FileState) (task : Option JVal) : FileState × ViewAddOutcome :=
  match task with
  | none => (st, .badRequest)
  | some t =>
    if jsFalsy t then (st, .badRequest)
    else
      match readTasks st with
      | .arr xs => (writeTasks (.arr (xs ++ [t])), .redirect)
      | _ => (st, .crash)

/-- Outcome of the HTML-view delete handler (part_002 lines 37-48). -/
inductive ViewDelOutcome where
  | badRequest
  | redirect
  | crash


/-- Embeds router.get delete of part_002 (lines 37-48): same validation
as the JSON delete handler; the splice result is discarded and the
response is a redirect. -/
def viewDelete (st : FileState) (indexParam : String) : FileState × ViewDelOutcome :=
  let tasks := readTasks st
  match parseIntJS indexParam with
  | none => (st, .badRequest)
  | some i =>
    if i < 0 then (st, .badRequest)
    else
      match tasks with
      | .arr xs =>
        if (xs.length : Int) ≤ i then (st, .badRequest)
        else
          let r := spliceRemove xs i.toNat
          (writeTasks (.arr r.2), .redirect)
      | _ => (st, .crash)

/-- Embeds router.get of part_002 (lines 19-22): render with readTasks(),
no write. -/
def viewIndex (st : FileState) : FileState × JVal := (st, readTasks st)

/-! Helper lemmas shared by several theorems below. -/

/-- A non-empty string is truthy. -/
lemma jsFalsy_str_of_ne (s : String) (hs : s ≠ "") : jsFalsy (.str s) = false := by
  simp [jsFalsy, hs]

/-- Successful branch of the JSON add handler. -/
lemma postTask_push (st : FileState) (xs : List JVal) (t : JVal)
    (hread : readTasks st = .arr xs) (ht : jsFalsy t = false) :
    postTask st (some t) = (.stored (.arr (xs ++ [t])), .ok (.arr (xs ++ [t]))) := by
  simp [postTask, ht, hread, writeTasks]

/-- Successful branch of the HTML add handler. -/
lemma viewAdd_push (st : FileState) (xs : List JVal) (t : JVal)
    (hread : readTasks st = .arr xs) (ht : jsFalsy t = false) :
    viewAdd st (some t) = (.stored (.arr (xs ++ [t])), .redirect) := by
  simp [viewAdd, ht, hread, writeTasks]

/-- Successful branch of the JSON delete handler: with an in-bounds parsed
index the handler persists the spliced list and reports the splice result. -/
lemma deleteTask_inBounds (st : FileState) (xs : List JVal) (i : Nat) (s : String)
    (hread : readTasks st = .arr xs) (hp : parseIntJS s = some (i : Int))
    (h : i < xs.length) :
    deleteTask st s = (.stored (.arr (xs.take i ++ xs.drop (i + 1))),
      .ok (.arr ((xs.drop i).take 1)) (.arr (xs.take i ++ xs.drop (i + 1)))) := by
  have h0 : ¬ ((i : Int) < 0) := by omega
  have h1 : ¬ ((xs.length : Int) ≤ (i : Int)) := by
    simp only [not_le]
    exact_mod_cast h
  simp [deleteTask, hp, hread, h0, h1, spliceRemove, writeTasks]

/-- Successful branch of the HTML delete handler. -/
lemma viewDelete_inBounds (st : FileState) (xs : List JVal) (i : Nat) (s : String)
    (hread : readTasks st = .arr xs) (hp : parseIntJS s = some (i : Int))
    (h : i < xs.length) :
    viewDelete st s = (.stored (.arr (xs.take i ++ xs.drop (i + 1))), .redirect) := by
  have h0 : ¬ ((i : Int) < 0) := by omega
  have h1 : ¬ ((xs.length : Int) ≤ (i : Int)) := by
    simp only [not_le]
    exact_mod_cast h
  simp [viewDelete, hp, hread, h0, h1, spliceRemove, writeTasks]

/-- Removing one in-bounds position shortens the list by exactly one. -/
lemma splice_length (xs : List JVal) (i : Nat) (h : i < xs.length) :
    (xs.take i ++ xs.drop (i + 1)).length = xs.length - 1 := by
  simp only [List.length_append, List.length_take, List.length_drop]
  omega

/-! Claim theorems. -/

/-- Claim C2, counterexample to the claim as stated: a store whose content
is the valid JSON value 42 — content that is not a valid array — makes
list() return 42, not the empty sequence, because readTasks returns
whatever JSON.parse produced without checking that it is an array. -/
theorem list_nonarray_counterexample :
    getTasks (.stored (.num 42)) = (.stored (.num 42), .num 42) ∧
    JVal.num 42 ≠ JVal.arr [] :=
  ⟨rfl, fun h => nomatch h⟩

/-- Claim C2, amended: list() returns the empty sequence exactly on the two
exception paths — missing file and content that is not valid JSON — and
returns the parsed value unchanged (even a non-array one) whenever the
content does parse; it never throws, being a total function. -/
theorem list_fail_open :
    (getTasks .absent).snd = .arr [] ∧
    (getTasks .unparseable).snd = .arr [] ∧
    ∀ v : JVal, (getTasks (.stored v)).snd = v :=
  ⟨rfl, rfl, fun _ => rfl⟩

/-- Claim C9: both add handlers reject every falsy task value — the number
0, the boolean false, null, and the empty string — with the same
validation failure, leaving the store untouched. -/
theorem add_rejects_falsy_values (st : FileState) :
    postTask st (some (.num 0)) = (st, .validationError) ∧
    postTask st (some (.bool false)) = (st, .validationError) ∧
    postTask st (some .null) = (st, .validationError) ∧
    postTask st (some (.str "")) = (st, .validationError) ∧
    viewAdd st (some (.num 0)) = (st, .badRequest) ∧
    viewAdd st (some (.bool false)) = (st, .badRequest) ∧
    viewAdd st (some .null) = (st, .badRequest) ∧
    viewAdd st (some (.str "")) = (st, .badRequest) :=
  ⟨rfl, rfl, rfl, rfl, rfl, rfl, rfl, rfl⟩

/-- Claim C10: the list operation is read-only — for every file state both
read endpoints return the state unchanged (an absent or malformed file is
neither created nor repaired), and repeating list() with no intervening
mutation yields the same sequence. -/
theorem list_is_readonly (st : FileState) :
    (getTasks st).fst = st ∧
    (getTasks st).snd = (getTasks ((getTasks st).fst)).snd ∧
    (viewIndex st).fst = st :=
  ⟨rfl, rfl, rfl⟩

/-- Claim C1, counterexample to the claim as stated: deleting index 0 from
the stored list a, b reports as deletedTask the value returned by
tasks.splice(0, 1), which is the one-element array containing a, not the
bare element a. -/
theorem removeAt_returns_wrapped_counterexample :
    deleteTask (.stored (.arr [.str "a", .str "b"])) "0" =
      (.stored (.arr [.str "b"]), .ok (.arr [.str "a"]) (.arr [.str "b"])) ∧
    JVal.arr [.str "a"] ≠ JVal.str "a" :=
  ⟨rfl, fun h => nomatch h⟩

/-- Claim C1, amended: for every in-bounds index i, removeAt reports as its
deletedTask component the one-element sequence containing exactly the
element previously at position i (splice wraps the removed element in an
array). -/
theorem removeAt_removed_component (st : FileState) (xs : List JVal) (i : Nat) (s : String)
    (hread : readTasks st = .arr xs) (hp : parseIntJS s = some (i : Int))
    (h : i < xs.length) :
    (deleteTask st s).snd = .ok (.arr [xs[i]]) (.arr (xs.take i ++ xs.drop (i + 1))) := by
  rw [deleteTask_inBounds st xs i s hread hp h]
  have := List.take_one_drop_eq_of_lt_length h
  simp only [List.get_eq_getElem] at this
  rw [this]

/-- Witness for removeAt_removed_component at the concrete list a, b and
index 0. -/
theorem removeAt_removed_component_witness :
    (deleteTask (.stored (.arr [.str "a", .str "b"])) "0").snd =
      .ok (.arr [.str "a"]) (.arr [.str "b"]) :=
  removeAt_removed_component (.stored (.arr [.str "a", .str "b"]))
    [.str "a", .str "b"] 0 "0" rfl rfl (by decide)

/-- Claim C4: adding a non-empty task value to any readable state holding
the sequence xs persists exactly xs with the task appended, an immediate
list() returns that sequence, its last element is the added task, the
length grows by exactly one, and the HTML add handler does the same; no
deduplication occurs since the append is unconditional. -/
theorem add_appends_last (st : FileState) (xs : List JVal) (s : String)
    (hread : readTasks st = .arr xs) (hs : s ≠ "") :
    postTask st (some (.str s)) =
      (.stored (.arr (xs ++ [.str s])), .ok (.arr (xs ++ [.str s]))) ∧
    (getTasks (.stored (.arr (xs ++ [.str s])))).snd = .arr (xs ++ [.str s]) ∧
    (xs ++ [JVal.str s]).getLast? = some (JVal.str s) ∧
    (xs ++ [JVal.str s]).length = xs.length + 1 ∧
    viewAdd st (some (.str s)) = (.stored (.arr (xs ++ [.str s])), .redirect) := by
  have ht := jsFalsy_str_of_ne s hs
  refine ⟨postTask_push st xs (.str s) hread ht, rfl, List.getLast?_concat xs, ?_,
    viewAdd_push st xs (.str s) hread ht⟩
  simp

/-- Witness for add_appends_last: adding the first task to an absent
store. -/
theorem add_appends_last_witness :
    postTask .absent (some (.str "Buy groceries")) =
      (.stored (.arr [.str "Buy groceries"]), .ok (.arr [.str "Buy groceries"])) ∧
    (getTasks (.stored (.arr [.str "Buy groceries"]))).snd = .arr [.str "Buy groceries"] ∧
    List.getLast? [JVal.str "Buy groceries"] = some (JVal.str "Buy groceries") ∧
    List.length [JVal.str "Buy groceries"] = 0 + 1 ∧
    viewAdd .absent (some (.str "Buy groceries")) =
      (.stored (.arr [.str "Buy groceries"]), .redirect) :=
  add_appends_last .absent [] "Buy groceries" rfl (by decide)

/-- Claim C5: for every in-bounds parsed index i, both delete handlers
persist exactly the original sequence with position i removed and all
later elements shifted down by one — take i followed by drop past i — and
the length decreases by exactly one. -/
theorem removeAt_result_sequence (st : FileState) (xs : List JVal) (i : Nat) (s : String)
    (hread : readTasks st = .arr xs) (hp : parseIntJS s = some (i : Int))
    (h : i < xs.length) :
    deleteTask st s = (.stored (.arr (xs.take i ++ xs.drop (i + 1))),
      .ok (.arr ((xs.drop i).take 1)) (.arr (xs.take i ++ xs.drop (i + 1)))) ∧
    (xs.take i ++ xs.drop (i + 1)).length = xs.length - 1 ∧
    viewDelete st s = (.stored (.arr (xs.take i ++ xs.drop (i + 1))), .redirect) :=
  ⟨deleteTask_inBounds st xs i s hread hp h, splice_length xs i h,
    viewDelete_inBounds st xs i s hread hp h⟩

/-- Witness for removeAt_result_sequence: deleting index 1 from the stored
list a, b, c. -/
theorem removeAt_result_sequence_witness :
    deleteTask (.stored (.arr [.str "a", .str "b", .str "c"])) "1" =
      (.stored (.arr [.str "a", .str "c"]), .ok (.arr [.str "b"]) (.arr [.str "a", .str "c"])) ∧
    List.length [JVal.str "a", .str "c"] = List.length [JVal.str "a", .str "b", .str "c"] - 1 ∧
    viewDelete (.stored (.arr [.str "a", .str "b", .str "c"])) "1" =
      (.stored (.arr [.str "a", .str "c"]), .redirect) :=
  removeAt_result_sequence (.stored (.arr [.str "a", .str "b", .str "c"]))
    [.str "a", .str "b", .str "c"] 1 "1" rfl rfl (by decide)

/-- Claim C3, counterexample to the claim as stated: the non-integer index
input 1.5 does not fail — parseInt truncates it to 1, which is in bounds
for the stored list a, b, so the handler deletes the element at position 1
instead of rejecting the request. -/
theorem removeAt_noninteger_counterexample :
    parseIntJS "1.5" = some 1 ∧
    deleteTask (.stored (.arr [.str "a", .str "b"])) "1.5" =
      (.stored (.arr [.str "a"]), .ok (.arr [.str "b"]) (.arr [.str "a"])) ∧
    DelOutcome.ok (.arr [.str "b"]) (.arr [.str "a"]) ≠ DelOutcome.indexError :=
  ⟨rfl, rfl, fun h => nomatch h⟩

/-- Claim C3, amended: against a stored sequence, removeAt fails with
IndexError exactly when parseInt of the input yields NaN (no parseable
leading integer) or the parsed integer is negative or at least the length
of the freshly loaded sequence; inputs such as 1.5 or 2abc are truncated
by parseInt to their leading integer and succeed when that integer is in
bounds.  The HTML delete handler fails under exactly the same condition. -/
theorem removeAt_indexError_iff (xs : List JVal) (s : String) :
    ((deleteTask (.stored (.arr xs)) s).snd = .indexError ↔
      parseIntJS s = none ∨
        ∃ i : Int, parseIntJS s = some i ∧ (i < 0 ∨ (xs.length : Int) ≤ i)) ∧
    ((viewDelete (.stored (.arr xs)) s).snd = .badRequest ↔
      parseIntJS s = none ∨
        ∃ i : Int, parseIntJS s = some i ∧ (i < 0 ∨ (xs.length : Int) ≤ i)) := by
  constructor <;>
  · cases hp : parseIntJS s with
    | none => simp [deleteTask, viewDelete, hp, readTasks]
    | some i =>
      by_cases hi : i < 0
      · simp [deleteTask, viewDelete, hp, hi, readTasks]
      · by_cases hl : (xs.length : Int) ≤ i
        · simp [deleteTask, viewDelete, hp, hi, hl, readTasks]
        · simp [deleteTask, viewDelete, hp, hi, hl, readTasks]

/-- Witness for removeAt_indexError_iff: index 5 against the empty stored
sequence is rejected. -/
theorem removeAt_indexError_iff_witness :
    (deleteTask (.stored (.arr [])) "5").snd = .indexError :=
  (removeAt_indexError_iff [] "5").1.mpr (Or.inr ⟨5, rfl, Or.inr (by decide)⟩)

/-- Claim C6, counterexample to the claim as stated: the task value 0 is
present, is not null, and is not the empty string, yet add rejects it with
the validation failure, because the guard tests JavaScript falsiness
rather than absence or emptiness. -/
theorem add_zero_rejected_counterexample :
    postTask (.stored (.arr [.str "x"])) (some (.num 0)) =
      (.stored (.arr [.str "x"]), .validationError) ∧
    JVal.num 0 ≠ JVal.null ∧ JVal.num 0 ≠ JVal.str "" :=
  ⟨rfl, ⟨(fun h => nomatch h), fun h => nomatch h⟩⟩

/-- Claim C6, amended: add fails with ValidationError exactly when the task
value is falsy — absent, null, the empty string, the number 0, or false —
and every such failure leaves the persisted state unchanged (the handler
returns before any write); likewise for the HTML add handler. -/
theorem add_validationError_iff (st : FileState) (task : Option JVal) :
    ((postTask st task).snd = .validationError ↔ bodyTaskFalsy task = true) ∧
    ((postTask st task).snd = .validationError → (postTask st task).fst = st) ∧
    ((viewAdd st task).snd = .badRequest ↔ bodyTaskFalsy task = true) ∧
    ((viewAdd st task).snd = .badRequest → (viewAdd st task).fst = st) := by
  cases task with
  | none => simp [postTask, viewAdd, bodyTaskFalsy]
  | some t =>
    by_cases ht : jsFalsy t
    · simp [postTask, viewAdd, bodyTaskFalsy, ht]
    · cases hv : readTasks st <;>
        simp [postTask, viewAdd, bodyTaskFalsy, ht, hv]

/-- Witness for add_validationError_iff: an absent task field is rejected
and the store is untouched. -/
theorem add_validationError_iff_witness :
    (postTask (.stored (.arr [.str "x"])) none).snd = .validationError ∧
    (postTask (.stored (.arr [.str "x"])) none).fst = .stored (.arr [.str "x"]) :=
  ⟨(add_validationError_iff (.stored (.arr [.str "x"])) none).1.mpr rfl,
    (add_validationError_iff (.stored (.arr [.str "x"])) none).2.1 rfl⟩

/-- Claim C7: whenever either delete handler rejects a request with the
index failure, the file state it returns is exactly the state it was
called with — the rejecting branches return before any write. -/
theorem removeAt_failure_frame (st : FileState) (s : String) :
    ((deleteTask st s).snd = .indexError → (deleteTask st s).fst = st) ∧
    ((viewDelete st s).snd = .badRequest → (viewDelete st s).fst = st) := by
  constructor <;>
  · intro h
    cases hp : parseIntJS s with
    | none => simp [deleteTask, viewDelete, hp]
    | some i =>
      by_cases hi : i < 0
      · simp [deleteTask, viewDelete, hp, hi]
      · cases hv : readTasks st with
        | arr xs =>
          by_cases hl : (xs.length : Int) ≤ i
          · simp [deleteTask, viewDelete, hp, hi, hv, hl]
          · simp [deleteTask, viewDelete, hp, hi, hv, hl] at h
        | null => simp [deleteTask, viewDelete, hp, hi, hv]
        | bool b => simp [deleteTask, viewDelete, hp, hi, hv]
        | num n => simp [deleteTask, viewDelete, hp, hi, hv]
        | str t => simp [deleteTask, viewDelete, hp, hi, hv]

/-- Witness for removeAt_failure_frame: index 0 against an absent store is
rejected (the empty sequence has no position 0) and the store stays
absent. -/
theorem removeAt_failure_frame_witness :
    (deleteTask .absent "0").fst = .absent :=
  (removeAt_failure_frame .absent "0").1 rfl

/-- Claim C8, counterexample to the claim as stated: running the scenario
from an absent store, the third operation removeAt(0) does not return the
bare value Buy milk — its deletedTask component is the one-element array
containing Buy milk, because splice returns an array of the removed
elements. -/
theorem scenario_removed_value_counterexample :
    (deleteTask (postTask (postTask .absent (some (.str "Buy milk"))).fst
        (some (.str "Walk dog"))).fst "0").snd =
      .ok (.arr [.str "Buy milk"]) (.arr [.str "Walk dog"]) ∧
    DelOutcome.ok (.arr [.str "Buy milk"]) (.arr [.str "Walk dog"]) ≠
      DelOutcome.ok (.str "Buy milk") (.arr [.str "Walk dog"]) :=
  ⟨rfl, fun h => nomatch h⟩

/-- Claim C8, amended: starting from an absent store, the scenario runs
exactly as claimed except for the shape of the removeAt(0) return value:
add of Buy milk stores the singleton list and list() shows it; add of
Walk dog appends; removeAt(0) reports the one-element array containing
Buy milk (not the bare value) and persists the list holding only
Walk dog; removeAt(5) fails with the index error and leaves the store,
and hence a final list(), unchanged. -/
theorem scenario_trace :
    postTask .absent (some (.str "Buy milk")) =
      (.stored (.arr [.str "Buy milk"]), .ok (.arr [.str "Buy milk"])) ∧
    (getTasks (.stored (.arr [.str "Buy milk"]))).snd = .arr [.str "Buy milk"] ∧
    postTask (.stored (.arr [.str "Buy milk"])) (some (.str "Walk dog")) =
      (.stored (.arr [.str "Buy milk", .str "Walk dog"]),
        .ok (.arr [.str "Buy milk", .str "Walk dog"])) ∧
    (getTasks (.stored (.arr [.str "Buy milk", .str "Walk dog"]))).snd =
      .arr [.str "Buy milk", .str "Walk dog"] ∧
    deleteTask (.stored (.arr [.str "Buy milk", .str "Walk dog"])) "0" =
      (.stored (.arr [.str "Walk dog"]),
        .ok (.arr [.str "Buy milk"]) (.arr [.str "Walk dog"])) ∧
    deleteTask (.stored (.arr [.str "Walk dog"])) "5" =
      (.stored (.arr [.str "Walk dog"]), .indexError) ∧
    (getTasks (.stored (.arr [.str "Walk dog"]))).snd = .arr [.str "Walk dog"] :=
  ⟨rfl, rfl, rfl, rfl, rfl, rfl, rfl⟩

end TaskManager
